import Mathlib

/-
Verification of the quota-ledger and token-estimation core of the
OpenAI-translation repository (Next.js app).

The embedding below translates the TypeScript sources into Lean:
  * src/lib/quotaStore.ts        -- Redis-backed daily quota ledger
    (the file contains two revisions; the first revision, with
    QuotaDisabledError, is embedded as the primary one, and the second
    revision, with RedisUnavailableError, is embedded with a V2 suffix
    where a claim cites it)
  * src/lib/tokenEstimator.ts    -- text token estimator (text-only revision,
    embedded with a V1 suffix) and the image-capable revision of the same
    module (embedded with a V2 suffix)
  * src/config/prompt.ts, src/config/models.ts -- constants

Conventions of the embedding:
  * JavaScript timestamps (Date.getTime) are modelled as Nat epoch
    milliseconds; all times of interest are at or after 1970-01-01.
  * The UTC calendar accessors of JS Date (getUTCFullYear/Month/Date and
    Date.UTC) are given the standard proleptic-Gregorian semantics of the
    ECMAScript specification, implemented with the usual era-based civil
    calendar arithmetic.
  * JavaScript numbers that may be NaN or infinite are modelled by the
    JSNumber type below; elsewhere integer-valued numbers are Int/Nat and
    fractional arithmetic is exact rational arithmetic.  Math.round is
    floor (x + 1/2), as in ECMAScript.
  * The Redis database is a state (functions from keys to values) and each
    command is a state transformer; a MULTI transaction is the sequential
    composition of its commands at a single time instant.
-/

/-- A JavaScript number as received by normaliseTokens: either a finite
(rational) value or one of the non-finite values. -/
inductive JSNumber where
  | finite (q : ℚ)
  | nan
  | posInf
  | negInf
  deriving DecidableEq

/-- ECMAScript Math.round on a finite value: floor (x + 1/2). -/
def jsRound (q : ℚ) : Int :=
  Int.floor (q + 1/2)

/-- From src/lib/quotaStore.ts, normaliseTokens: non-finite or non-positive
inputs become 0, otherwise the value is rounded and clamped at 0. -/
def normaliseTokens : JSNumber → Nat
  | .finite q => if q ≤ 0 then 0 else (max 0 (jsRound q)).toNat
  | .nan => 0
  | .posInf => 0
  | .negInf => 0

/-- Ceiling division on Nat, used to state the spec's TTL formula. -/
def ceilDiv (a b : Nat) : Nat :=
  (a + b - 1) / b

/-- Civil (proleptic Gregorian) date of a day number counted from
1970-01-01; the triple is (year, month 1..12, day 1..31).  This is the
calendar semantics of the JS Date UTC accessors for non-negative times. -/
def civilFromDays (z : Nat) : Nat × Nat × Nat :=
  let z' := z + 719468
  let era := z' / 146097
  let doe := z' % 146097
  let yoe := (doe - doe / 1460 + doe / 36524 - doe / 146096) / 365
  let y := yoe + era * 400
  let doy := doe - (365 * yoe + yoe / 4 - yoe / 100)
  let mp := (5 * doy + 2) / 153
  let d := doy - (153 * mp + 2) / 5 + 1
  let m := if mp < 10 then mp + 3 else mp - 9
  (if m ≤ 2 then y + 1 else y, m, d)

/-- Day number (days since 1970-01-01) of a civil date (year, month 1..12,
day); inverse of civilFromDays on the dates this development uses. -/
def daysFromCivil (y m d : Nat) : Nat :=
  let y' := if m ≤ 2 then y - 1 else y
  let era := y' / 400
  let yoe := y' - era * 400
  let doy := (153 * (if 2 < m then m - 3 else m + 9) + 2) / 5 + d - 1
  let doe := yoe * 365 + yoe / 4 - yoe / 100 + doy
  era * 146097 + doe - 719468

/-- Date.UTC (year, monthIndex, date) in epoch milliseconds, for a month
index 0..11 as produced by getUTCMonth; the date argument may exceed the
month length (ECMAScript MakeDay normalises it). -/
def jsDateUTCms (y : Nat) (monthIndex : Nat) (date : Nat) : Nat :=
  (daysFromCivil y (monthIndex + 1) 1 + (date - 1)) * 86400000

/-- Decimal rendering of a number padded on the left with "0" to width 2
(String.padStart (2, "0") on the rendering of a Nat). -/
def pad2 (n : Nat) : String :=
  if (toString n).length < 2 then "0" ++ toString n else toString n

/-- From src/lib/quotaStore.ts, currentDateKey: the UTC calendar date of
the reference time formatted as year-month-day with padded month and day. -/
def currentDateKey (t : Nat) : String :=
  match civilFromDays (t / 86400000) with
  | (y, m, d) => toString y ++ "-" ++ pad2 m ++ "-" ++ pad2 d

/-- From src/lib/quotaStore.ts, nextUtcMidnight: Date.UTC of the day after
the UTC calendar date of the reference time. -/
def nextUtcMidnight (t : Nat) : Nat :=
  match civilFromDays (t / 86400000) with
  | (y, m, d) => jsDateUTCms y (m - 1) (d + 1)

/-- From src/lib/quotaStore.ts, secondsUntilNextUtcMidnight: the same next
midnight computed again, then max 1 (floor of the millisecond gap / 1000). -/
def secondsUntilNextUtcMidnight (t : Nat) : Nat :=
  let nm :=
    match civilFromDays (t / 86400000) with
    | (y, m, d) => jsDateUTCms y (m - 1) (d + 1)
  max 1 ((nm - t) / 1000)

/-- From src/lib/quotaStore.ts, nextBeijingReset simply delegates to
nextUtcMidnight. -/
def nextBeijingReset (t : Nat) : Nat :=
  nextUtcMidnight t

example : civilFromDays 0 = (1970, 1, 1) := by decide
example : currentDateKey 0 = "1970-01-01" := by decide
example : nextUtcMidnight 86398500 = 86400000 := by decide
example : secondsUntilNextUtcMidnight 86398500 = 1 := by decide
example : secondsUntilNextUtcMidnight 43200500 = 43199 := by decide

/-! ## The Redis database and the quota store (src/lib/quotaStore.ts) -/

/-- The three sub-keys of a day's usage record. -/
inductive QuotaKeyType where
  | total
  | requests
  | models
  deriving DecidableEq

/-- From src/lib/quotaStore.ts, composeKey: BASE_KEY, the day key and the
sub-key discriminator joined with colons. -/
def composeKey (dateKey : String) : QuotaKeyType → String
  | .total => "token-usage:" ++ dateKey ++ ":" ++ "total"
  | .requests => "token-usage:" ++ dateKey ++ ":" ++ "requests"
  | .models => "token-usage:" ++ dateKey ++ ":" ++ "models"

/-- The Redis database: string keys holding integers (the counters), hash
keys holding field maps (the per-model histogram), and an absolute expiry
instant in epoch milliseconds per key. -/
structure RedisDB where
  kv : String → Option Int
  hv : String → Option (String → Option Int)
  exp : String → Option Nat

/-- The empty database. -/
def RedisDB.empty : RedisDB :=
  ⟨fun _ => none, fun _ => none, fun _ => none⟩

/-- A key exists when it holds a string value or a hash. -/
def RedisDB.keyExists (db : RedisDB) (k : String) : Bool :=
  (db.kv k).isSome || (db.hv k).isSome

/-- Redis passive expiry: a key whose expiry instant has been reached is
gone, together with its expiry.  Applied at the single time instant at
which a transaction runs. -/
def prune (now : Nat) (db : RedisDB) : RedisDB where
  kv := fun k => match db.exp k with
    | some e => if e ≤ now then none else db.kv k
    | none => db.kv k
  hv := fun k => match db.exp k with
    | some e => if e ≤ now then none else db.hv k
    | none => db.hv k
  exp := fun k => match db.exp k with
    | some e => if e ≤ now then none else some e
    | none => none

/-- Redis INCRBY: a missing key counts as 0. -/
def incrBy (k : String) (n : Int) (db : RedisDB) : RedisDB :=
  { db with kv := fun k' => if k' = k then some ((db.kv k).getD 0 + n) else db.kv k' }

/-- Redis HINCRBY: a missing hash or field counts as 0. -/
def hIncrBy (k field : String) (n : Int) (db : RedisDB) : RedisDB :=
  { db with hv := fun k' =>
      if k' = k then
        some (fun f =>
          if f = field then some ((((db.hv k).getD (fun _ => none)) field).getD 0 + n)
          else ((db.hv k).getD (fun _ => none)) f)
      else db.hv k' }

/-- Redis EXPIRE key seconds NX: on an existing key with no expiry, set the
absolute expiry to now + seconds; otherwise do nothing (EXPIRE on a missing
key is a no-op, and NX keeps an existing expiry). -/
def expireNX (k : String) (seconds : Nat) (now : Nat) (db : RedisDB) : RedisDB :=
  if db.keyExists k then
    match db.exp k with
    | some _ => db
    | none => { db with exp := fun k' => if k' = k then some (now + seconds * 1000) else db.exp k' }
  else db

/-- From src/lib/quotaStore.ts, RedisQuotaStore.getUsage: GET of the day's
total key, 0 when absent. -/
def getUsage (db : RedisDB) (now : Nat) (dateKey : String) : Int :=
  (((prune now db).kv (composeKey dateKey .total)).getD 0)

/-- From src/lib/quotaStore.ts, RedisQuotaStore.incrementUsage: within one
MULTI transaction at the reference instant, INCRBY the total when the
normalised token count is positive, INCR the request counter, EXPIRE NX the
total and request keys for the seconds until the next UTC midnight, and for
a named model with positive tokens HINCRBY the histogram and EXPIRE NX it;
then GET the new total. -/
def incrementUsage (db : RedisDB) (dateKey : String) (model : Option String)
    (tokens : JSNumber) (tms : Nat) : Int × RedisDB :=
  let tk : Nat := normaliseTokens tokens
  let totalKey := composeKey dateKey .total
  let requestsKey := composeKey dateKey .requests
  let modelsKey := composeKey dateKey .models
  let expireSeconds := secondsUntilNextUtcMidnight tms
  let db0 := prune tms db
  let db1 := if 0 < tk then incrBy totalKey (↑tk) db0 else db0
  let db2 := incrBy requestsKey 1 db1
  let db3 := expireNX totalKey expireSeconds tms db2
  let db4 := expireNX requestsKey expireSeconds tms db3
  let db5 := match model with
    | some m => if 0 < tk then expireNX modelsKey expireSeconds tms (hIncrBy modelsKey m (↑tk) db4) else db4
    | none => db4
  ((db5.kv totalKey).getD 0, db5)

/-- From src/lib/quotaStore.ts, DAILY_TOKEN_LIMIT. -/
def DAILY_TOKEN_LIMIT : Int := 2500000

/-- The derived quota status.  The resetAt and serverTime ISO strings of the
source are represented by the underlying millisecond instants they render. -/
structure QuotaStatus where
  used : Int
  limit : Int
  remaining : Int
  resetAtMs : Nat
  serverTimeMs : Nat
  deriving DecidableEq

/-- From src/lib/quotaStore.ts, toQuotaStatus: the fixed limit, the clamped
remaining budget and the next UTC midnight as reset instant. -/
def toQuotaStatus (used : Int) (now : Nat) : QuotaStatus :=
  { used := used
    limit := DAILY_TOKEN_LIMIT
    remaining := max 0 (DAILY_TOKEN_LIMIT - used)
    resetAtMs := nextUtcMidnight now
    serverTimeMs := now }

/-- The process-wide state of the quota module (revision 1 of
src/lib/quotaStore.ts): the configured endpoint, the cached global client
and its open flag, whether the store is currently reachable over the
network, the observable disabled reason, and the store contents. -/
structure QuotaGlobal where
  redisUrl : Option String
  hasClient : Bool
  clientOpen : Bool
  reachable : Bool
  disabledReason : Option String
  db : RedisDB

/-- From src/lib/quotaStore.ts, markQuotaDisabled. -/
def markQuotaDisabled (g : QuotaGlobal) (reason : String) : QuotaGlobal :=
  { g with disabledReason := some reason }

/-- From src/lib/quotaStore.ts, markQuotaEnabled. -/
def markQuotaEnabled (g : QuotaGlobal) : QuotaGlobal :=
  { g with disabledReason := none }

/-- From src/lib/quotaStore.ts (revision 1), getRedisClient: no configured
endpoint disables quota; a cached open client is reused; a cached closed
client is reconnected when the store is reachable and dropped otherwise; a
fresh client is connected when reachable; connection failures disable quota.
The Bool reports whether a client was obtained.  The interpolated error
details of the source messages are abbreviated to fixed strings. -/
def getRedisClient (g : QuotaGlobal) : Bool × QuotaGlobal :=
  match g.redisUrl with
  | none => (false, markQuotaDisabled g "REDIS_URL 未配置")
  | some _ =>
    if g.hasClient then
      if g.clientOpen then (true, markQuotaEnabled g)
      else if g.reachable then (true, markQuotaEnabled { g with clientOpen := true })
      else (false, markQuotaDisabled { g with hasClient := false, clientOpen := false } "Redis 重连失败")
    else if g.reachable then (true, markQuotaEnabled { g with hasClient := true, clientOpen := true })
    else (false, markQuotaDisabled g "Redis 连接失败")

/-- Result of getQuotaStatus (revision 1): a status, the null result when no
store is available, or a rejected promise when a Redis command fails on a
client whose connection is no longer alive. -/
inductive StatusOutcome where
  | ok (st : QuotaStatus)
  | nullStatus
  | connFail (msg : String)
  deriving DecidableEq

/-- From src/lib/quotaStore.ts (revision 1), getQuotaStatus: null when no
client is available, otherwise the usage of the current day key turned into
a status; a command on an unreachable connection raises. -/
def getQuotaStatusRun (g : QuotaGlobal) (now : Nat) : StatusOutcome × QuotaGlobal :=
  match getRedisClient g with
  | (false, g') => (.nullStatus, g')
  | (true, g') =>
    if g'.reachable then
      (.ok (toQuotaStatus (getUsage g'.db now (currentDateKey now)) now), g')
    else (.connFail "Redis command failed", g')

/-- Result of ensureQuotaAvailable / incrementQuota (revision 1). -/
inductive EnsureOutcome where
  | ok (st : QuotaStatus)
  | errDisabled (msg : String)
  | errExceeded (msg : String)
  | errConn (msg : String)
  deriving DecidableEq

/-- From src/lib/quotaStore.ts (revision 1), ensureQuotaAvailable: a null
status becomes QuotaDisabledError, a status with remaining at or below 0
becomes DailyQuotaExceededError (whose only payload is its fixed default
message), otherwise the status is returned. -/
def ensureQuotaAvailableRun (g : QuotaGlobal) (now : Nat) : EnsureOutcome × QuotaGlobal :=
  match getQuotaStatusRun g now with
  | (.ok st, g') =>
    if st.remaining ≤ 0 then (.errExceeded "Daily token quota exceeded", g')
    else (.ok st, g')
  | (.nullStatus, g') => (.errDisabled ((g'.disabledReason).getD "Redis unavailable"), g')
  | (.connFail m, g') => (.errConn m, g')

/-- From src/lib/quotaStore.ts (revision 1), incrementQuota: QuotaDisabled
when no client is available, otherwise incrementUsage on the current day
key of the supplied timestamp, returning the post-increment status. -/
def incrementQuotaRun (g : QuotaGlobal) (model : Option String) (tokens : JSNumber)
    (tms : Nat) : EnsureOutcome × QuotaGlobal :=
  match getRedisClient g with
  | (false, g') => (.errDisabled ((g'.disabledReason).getD "Redis unavailable"), g')
  | (true, g') =>
    if g'.reachable then
      let r := incrementUsage g'.db (currentDateKey tms) model tokens tms
      (.ok (toQuotaStatus r.1 tms), { g' with db := r.2 })
    else (.errConn "Redis command failed", g')

/-! ### Revision 2 of src/lib/quotaStore.ts (RedisUnavailableError variant),
cited by the degraded-mode claim for its getQuotaStatus. -/

/-- The process-wide state of revision 2 (it has no disabled-reason cell). -/
structure QuotaGlobalV2 where
  redisUrl : Option String
  hasClient : Bool
  reachable : Bool
  db : RedisDB

/-- Result of getQuotaStatus in revision 2: a status, a thrown
RedisUnavailableError, or a rejected Redis command. -/
inductive StatusOutcomeV2 where
  | ok (st : QuotaStatus)
  | errUnavailable (msg : String)
  | connFail (msg : String)
  deriving DecidableEq

/-- From src/lib/quotaStore.ts (revision 2), getRedisClient: throws
RedisUnavailableError when no endpoint is configured or connecting fails; a
cached client is returned without any liveness check. -/
def getRedisClientV2 (g : QuotaGlobalV2) : Option String × QuotaGlobalV2 :=
  match g.redisUrl with
  | none => (some "REDIS_URL 未配置，无法统计额度", g)
  | some _ =>
    if g.hasClient then (none, g)
    else if g.reachable then (none, { g with hasClient := true })
    else (some "Redis 连接失败", g)

/-- From src/lib/quotaStore.ts (revision 2), getQuotaStatus: propagates
RedisUnavailableError, otherwise reads the current day's usage; a command
on a dead cached connection rejects. -/
def getQuotaStatusV2Run (g : QuotaGlobalV2) (now : Nat) : StatusOutcomeV2 × QuotaGlobalV2 :=
  match getRedisClientV2 g with
  | (some msg, g') => (.errUnavailable msg, g')
  | (none, g') =>
    if g'.reachable then
      (.ok (toQuotaStatus (getUsage g'.db now (currentDateKey now)) now), g')
    else (.connFail "Redis command failed", g')

/-! ## The spec-modelled Local Adapter

The translate-route revision in the repository imports getQuotaStorageKind
from the quota store and reports it alongside quota data, and the README
documents an in-process memory fallback used when Redis is missing; the
quota-store revision implementing them is not part of the snapshot. -/

/-- Modelled from the spec: the storage-adapter kind reported alongside the
quota status (the implementation backing getQuotaStorageKind is missing
from the snapshot). -/
inductive StorageKind where
  | redis
  | memory
  deriving DecidableEq

/-- Modelled from the spec: one day's counters of the Local Adapter. -/
structure LocalDayRecord where
  totalTokens : Nat
  requestCount : Nat
  perModel : String → Nat

/-- Modelled from the spec: the Local Adapter state, an in-process map
from day key to counters. -/
structure LocalStore where
  entries : String → Option LocalDayRecord

/-- Modelled from the spec: on each read or write the Local Adapter prunes
any day key other than the current one. -/
def localPrune (dayKey : String) (s : LocalStore) : LocalStore :=
  ⟨fun k => if k = dayKey then s.entries k else none⟩

/-- Modelled from the spec: getUsage of the Local Adapter returns the
persisted total for the day, or 0 if absent. -/
def localGetUsage (s : LocalStore) (dayKey : String) : Nat × LocalStore :=
  let s' := localPrune dayKey s
  (((s'.entries dayKey).map LocalDayRecord.totalTokens).getD 0, s')

/-- Modelled from the spec: incrementUsage of the Local Adapter adds the
clamped and rounded token count to the day's total, increments the request
counter, optionally adds to the per-model histogram, and returns the new
total. -/
def localIncrementUsage (s : LocalStore) (dayKey : String) (tokens : JSNumber)
    (model : Option String) : Nat × LocalStore :=
  let tk := normaliseTokens tokens
  let s' := localPrune dayKey s
  let r := (s'.entries dayKey).getD ⟨0, 0, fun _ => 0⟩
  let r' : LocalDayRecord :=
    { totalTokens := r.totalTokens + tk
      requestCount := r.requestCount + 1
      perModel := match model with
        | some m => fun f => if f = m then r.perModel f + tk else r.perModel f
        | none => r.perModel }
  (r'.totalTokens, ⟨fun k => if k = dayKey then some r' else s'.entries k⟩)

/-- Modelled from the spec: adapter selection policy — the Durable Adapter
when a durable-store endpoint is configured and reachable, otherwise the
Local Adapter; the chosen kind is what getQuotaStorageKind reports. -/
def selectStorageKind (redisUrl : Option String) (reachable : Bool) : StorageKind :=
  if redisUrl.isSome && reachable then .redis else .memory

/-! ## The token estimation engine -/

/-- The ECMAScript white-space and line-terminator set removed by
String.prototype.trim. -/
def jsWhitespace (c : Char) : Bool :=
  c.toNat = 0x9 || c.toNat = 0xA || c.toNat = 0xB || c.toNat = 0xC || c.toNat = 0xD ||
  c.toNat = 0x20 || c.toNat = 0xA0 || c.toNat = 0x1680 ||
  (0x2000 ≤ c.toNat && c.toNat ≤ 0x200A) ||
  c.toNat = 0x2028 || c.toNat = 0x2029 || c.toNat = 0x202F || c.toNat = 0x205F ||
  c.toNat = 0x3000 || c.toNat = 0xFEFF

/-- JavaScript String.prototype.trim. -/
def jsTrim (s : String) : String :=
  ⟨((s.data.dropWhile jsWhitespace).reverse.dropWhile jsWhitespace).reverse⟩

/-- From src/config/prompt.ts, TRANSLATION_SYSTEM_PROMPT. -/
def TRANSLATION_SYSTEM_PROMPT : String :=
  "You are a world-class translation engine. Detect the source language when necessary, preserve original formatting, whitespace, and code blocks. Do not add explanations or commentary—only output the translated text.翻译结果里不应当携带<Text_Translate></Text_Translate>的XML标签，你应当只翻译<Text_Translate>我是内容<Text_Translate>里的内容。"

/-- From src/config/prompt.ts, buildTranslationPrompt: the instruction
lines, the delimited source text, joined by blank lines. -/
def buildTranslationPrompt (text source target : String) : String :=
  let sourceLabel := if source = "auto" then "auto-detect" else source
  String.intercalate "\n\n"
    [ "Translate the following content from " ++ sourceLabel ++ " to " ++ target ++ "."
    , "Maintain markdown formatting, numbers, punctuation, emoji, and code blocks."
    , "Keep the tone natural and faithful. Do not explain or wrap the answer with additional descriptions."
    , "<Text_Translate>"
    , text
    , "</Text_Translate>" ]

/-- From src/config/models.ts, SUPPORTED_MODELS. -/
inductive SupportedModel where
  | gpt5mini
  | gpt5nano
  | gpt41mini
  | gpt41nano
  | gpt4oMini
  | o3mini
  | o4mini
  deriving DecidableEq

/-- From the image-capable revision of src/lib/tokenEstimator.ts, the
detail mode of an image request. -/
inductive ImageDetail where
  | low
  | high
  | auto
  deriving DecidableEq

/-- From the image-capable revision of src/lib/tokenEstimator.ts,
PATCH_BASE_MODELS: the per-model multiplier of the patch-based image cost
model (undefined entries select the tile rule instead). -/
def PATCH_BASE_MODELS : SupportedModel → Option ℚ
  | .gpt5mini => some 1.62
  | .gpt5nano => some 2.46
  | .gpt41mini => some 1.62
  | .gpt41nano => some 2.46
  | .o4mini => some 1.72
  | .gpt4oMini => none
  | .o3mini => none

/-- From the image-capable revision of src/lib/tokenEstimator.ts,
TILE_BASE_MODELS: base and per-tile cost of the tile-based image cost
model. -/
def TILE_BASE_MODELS : SupportedModel → Option (Int × Int)
  | .gpt4oMini => some (2833, 5667)
  | .o3mini => some (75, 150)
  | _ => none

/-- From the image-capable revision of src/lib/tokenEstimator.ts,
estimateImageTokens.  Dimensions are clamped to at least one pixel.  For a
patch-based model the image is tiled into 32-pixel patches; if the patch
count exceeds 1536 the dimensions are scaled by
r = sqrt (32 * 32 * 1536 / (w * h)), floored, aligned down to the 32-pixel
grid and clamped up to 32, and the patch count is recomputed; the result is
the patch count times the model multiplier, rounded.  floor (w * r) is
computed here as Nat.sqrt ((1572864 * w * w) / (w * h)), which is the exact
value of the floating-point expression of the source in exact real
arithmetic.  For a tile-based model, detail low is the base cost alone;
otherwise the dimensions are bounded to a 2048 box, the short side is
scaled to 768 (exact rational arithmetic with rounding as in the source; a
degenerate zero short side uses the Lean convention 768 / 0 = 0 where JS
would produce Infinity — no claim touches that path), 512-pixel tiles are
counted, and each costs the per-tile increment on top of the base.  An
unmodelled combination falls back to the pixel area divided by the patch
area. -/
def estimateImageTokens (model : SupportedModel) (width height : Int)
    (detail : ImageDetail) : Int :=
  let w : Nat := (max 1 width).toNat
  let h : Nat := (max 1 height).toNat
  match PATCH_BASE_MODELS model with
  | some mult =>
    let rawPatches := ceilDiv w 32 * ceilDiv h 32
    let w' := if 1536 < rawPatches then
        max 32 ((Nat.sqrt ((1572864 * w * w) / (w * h)) / 32) * 32) else w
    let h' := if 1536 < rawPatches then
        max 32 ((Nat.sqrt ((1572864 * h * h) / (w * h)) / 32) * 32) else h
    let tokens := ceilDiv w' 32 * ceilDiv h' 32
    jsRound ((tokens : ℚ) * mult)
  | none =>
    match TILE_BASE_MODELS model with
    | some spec =>
      if detail = .low then spec.1
      else
        let maxDim := max w h
        let w1 : Int := if 2048 < maxDim then jsRound ((w : ℚ) * (2048 / (maxDim : ℚ))) else (w : Int)
        let h1 : Int := if 2048 < maxDim then jsRound ((h : ℚ) * (2048 / (maxDim : ℚ))) else (h : Int)
        let minDim := min w1 h1
        let w2 : Int := jsRound ((w1 : ℚ) * (768 / (minDim : ℚ)))
        let h2 : Int := jsRound ((h1 : ℚ) * (768 / (minDim : ℚ)))
        let tiles := Int.ceil ((w2 : ℚ) / 512) * Int.ceil ((h2 : ℚ) / 512)
        spec.1 + tiles * spec.2
    | none => (ceilDiv (w * h) 1024 : Int)

/-- The token estimate produced by estimateTranslationTokenUsage.  Fields
are integers; the ISO-level JS numbers here are integer-valued. -/
structure TokenEstimate where
  systemTokens : Int
  promptTokens : Int
  sourceTokens : Int
  estimatedResponseTokens : Int
  totalTokens : Int
  deriving DecidableEq

/-- From src/lib/tokenEstimator.ts, MIN_RESPONSE_TOKENS. -/
def MIN_RESPONSE_TOKENS : Int := 64

/-- From src/lib/tokenEstimator.ts, CHAT_MESSAGE_OVERHEAD. -/
def CHAT_MESSAGE_OVERHEAD : Int := 12

/-- From src/lib/tokenEstimator.ts, RESPONSE_OVERHEAD. -/
def RESPONSE_OVERHEAD : Int := 3

/-- From src/lib/tokenEstimator.ts (text-only revision),
estimateTranslationTokenUsage.  The tiktoken encoder selected by the model
identifier is abstracted as a token-counting function enc on strings; the
multiplication by the response ratio 1.2 followed by Math.round is exact
rational arithmetic, which agrees with the double-precision computation of
the source for all realistic token counts.  Note the source adds only
system, prompt and response tokens into totalTokens. -/
def estimateTranslationTokenUsageV1 (enc : String → Nat)
    (text sourceLang targetLang : String) : TokenEstimate :=
  let trimmed := jsTrim text
  if trimmed = "" then ⟨0, 0, 0, 0, 0⟩
  else
    let systemTokens : Int := (enc TRANSLATION_SYSTEM_PROMPT : Int) + CHAT_MESSAGE_OVERHEAD
    let promptBody := buildTranslationPrompt trimmed sourceLang targetLang
    let promptTokens : Int := (enc promptBody : Int) + CHAT_MESSAGE_OVERHEAD
    let sourceTokens : Int := (enc trimmed : Int)
    let estimatedResponseTokens :=
      max (max MIN_RESPONSE_TOKENS (jsRound ((sourceTokens : ℚ) * 1.2))) sourceTokens
        + RESPONSE_OVERHEAD
    { systemTokens := systemTokens
      promptTokens := promptTokens
      sourceTokens := sourceTokens
      estimatedResponseTokens := estimatedResponseTokens
      totalTokens := systemTokens + promptTokens + estimatedResponseTokens }

/-- An image input of the image-capable estimator revision. -/
structure ImageInput where
  width : Int
  height : Int
  detail : Option ImageDetail

/-- From the image-capable revision of src/lib/tokenEstimator.ts,
estimateTranslationTokenUsage: an image request prices the image through
estimateImageTokens with a constant response floor, a text request prices
the trimmed text as in the text-only revision; in both branches the total
is the sum of system, prompt, source and response tokens. -/
def estimateTranslationTokenUsageV2 (enc : String → Nat) (model : SupportedModel)
    (text : Option String) (image : Option ImageInput)
    (sourceLang targetLang : String) : TokenEstimate :=
  let systemTokens : Int := (enc TRANSLATION_SYSTEM_PROMPT : Int) + CHAT_MESSAGE_OVERHEAD
  match image with
  | some img =>
    let promptBody := "Extract and translate all readable text from the image from "
      ++ (if sourceLang = "auto" then "auto-detect" else sourceLang)
      ++ " to " ++ targetLang ++ ". Only output the translated text."
    let promptTokens : Int := (enc promptBody : Int) + CHAT_MESSAGE_OVERHEAD
    let sourceTokens := estimateImageTokens model img.width img.height (img.detail.getD .high)
    let estimatedResponseTokens := MIN_RESPONSE_TOKENS + RESPONSE_OVERHEAD
    { systemTokens := systemTokens
      promptTokens := promptTokens
      sourceTokens := sourceTokens
      estimatedResponseTokens := estimatedResponseTokens
      totalTokens := systemTokens + promptTokens + sourceTokens + estimatedResponseTokens }
  | none =>
    let trimmed := jsTrim (text.getD "")
    if trimmed = "" then ⟨0, 0, 0, 0, 0⟩
    else
      let promptBody := buildTranslationPrompt trimmed sourceLang targetLang
      let promptTokens : Int := (enc promptBody : Int) + CHAT_MESSAGE_OVERHEAD
      let sourceTokens : Int := (enc trimmed : Int)
      let estimatedResponseTokens :=
        max (max MIN_RESPONSE_TOKENS (jsRound ((sourceTokens : ℚ) * 1.2))) sourceTokens
          + RESPONSE_OVERHEAD
      { systemTokens := systemTokens
        promptTokens := promptTokens
        sourceTokens := sourceTokens
        estimatedResponseTokens := estimatedResponseTokens
        totalTokens := systemTokens + promptTokens + sourceTokens + estimatedResponseTokens }

/-- From src/lib/tokenEstimator.ts, fallbackCharacterEstimate. -/
def fallbackCharacterEstimate (text : String) : Nat :=
  ceilDiv (jsTrim text).length 3

/-! ## Helper lemmas -/

theorem composeKey_ne_total_requests (dk : String) :
    composeKey dk .total ≠ composeKey dk .requests := by
  intro h
  have h2 := congrArg String.length h
  simp only [composeKey, String.length_append] at h2
  have e1 : ("token-usage:" : String).length = 12 := rfl
  have e2 : (":" : String).length = 1 := rfl
  have e3 : ("total" : String).length = 5 := rfl
  have e4 : ("requests" : String).length = 8 := rfl
  omega

theorem composeKey_ne_models_total (dk : String) :
    composeKey dk .models ≠ composeKey dk .total := by
  intro h
  have h2 := congrArg String.length h
  simp only [composeKey, String.length_append] at h2
  have e1 : ("token-usage:" : String).length = 12 := rfl
  have e2 : (":" : String).length = 1 := rfl
  have e3 : ("total" : String).length = 5 := rfl
  have e4 : ("models" : String).length = 6 := rfl
  omega

theorem composeKey_ne_models_requests (dk : String) :
    composeKey dk .models ≠ composeKey dk .requests := by
  intro h
  have h2 := congrArg String.length h
  simp only [composeKey, String.length_append] at h2
  have e1 : ("token-usage:" : String).length = 12 := rfl
  have e2 : (":" : String).length = 1 := rfl
  have e3 : ("models" : String).length = 6 := rfl
  have e4 : ("requests" : String).length = 8 := rfl
  omega

theorem incrBy_exp (k : String) (n : Int) (db : RedisDB) : (incrBy k n db).exp = db.exp := rfl

theorem incrBy_hv (k : String) (n : Int) (db : RedisDB) : (incrBy k n db).hv = db.hv := rfl

theorem hIncrBy_exp (k f : String) (n : Int) (db : RedisDB) : (hIncrBy k f n db).exp = db.exp := rfl

theorem hIncrBy_kv (k f : String) (n : Int) (db : RedisDB) : (hIncrBy k f n db).kv = db.kv := rfl

theorem expireNX_kv (k : String) (s now : Nat) (db : RedisDB) :
    (expireNX k s now db).kv = db.kv := by
  unfold expireNX
  split
  · split <;> rfl
  · rfl

theorem expireNX_hv (k : String) (s now : Nat) (db : RedisDB) :
    (expireNX k s now db).hv = db.hv := by
  unfold expireNX
  split
  · split <;> rfl
  · rfl

theorem expireNX_exp_other (k k' : String) (s now : Nat) (db : RedisDB) (h : k' ≠ k) :
    (expireNX k s now db).exp k' = db.exp k' := by
  unfold expireNX
  split
  · split
    · rfl
    · simp [h]
  · rfl

theorem expireNX_exp_set (k : String) (s now : Nat) (db : RedisDB)
    (hex : db.keyExists k = true) (hno : db.exp k = none) :
    (expireNX k s now db).exp k = some (now + s * 1000) := by
  unfold expireNX
  rw [hex]
  simp [hno]

theorem expireNX_exp_keep (k : String) (s now : Nat) (db : RedisDB) (e : Nat)
    (hsome : db.exp k = some e) :
    (expireNX k s now db).exp k = some e := by
  unfold expireNX
  split
  · simp [hsome]
  · exact hsome

theorem getRedisClient_db (g : QuotaGlobal) : ((getRedisClient g).2).db = g.db := by
  unfold getRedisClient markQuotaDisabled markQuotaEnabled
  rcases g.redisUrl with _ | u
  · rfl
  · split_ifs <;> rfl

theorem getRedisClient_reachable (g : QuotaGlobal) :
    ((getRedisClient g).2).reachable = g.reachable := by
  unfold getRedisClient markQuotaDisabled markQuotaEnabled
  rcases g.redisUrl with _ | u
  · rfl
  · split_ifs <;> rfl

theorem getQuotaStatusRun_db (g : QuotaGlobal) (now : Nat) :
    ((getQuotaStatusRun g now).2).db = g.db := by
  have h0 := getRedisClient_db g
  unfold getQuotaStatusRun
  rcases hc : getRedisClient g with ⟨b, g'⟩
  rw [hc] at h0
  cases b
  · exact h0
  · dsimp only
    split <;> exact h0

/-- C7.  For every non-negative used value, the derived quota status carries
the fixed limit 2500000 and remaining = max 0 (limit - used); the remaining
budget is never negative, and any used value at or above the limit gives
remaining = 0. -/
theorem toQuotaStatus_limit_remaining (used : Int) (now : Nat) (h : 0 ≤ used) :
    (toQuotaStatus used now).limit = 2500000 ∧
    (toQuotaStatus used now).remaining = max 0 (2500000 - used) ∧
    0 ≤ (toQuotaStatus used now).remaining ∧
    (2500000 ≤ used → (toQuotaStatus used now).remaining = 0) := by
  refine ⟨rfl, rfl, ?_, ?_⟩
  · simp [toQuotaStatus]
  · intro hover
    simp only [toQuotaStatus, DAILY_TOKEN_LIMIT]
    omega

/-- Witness for C7 at the overshoot value used = 2600000. -/
theorem toQuotaStatus_limit_remaining_witness :
    (0 : Int) ≤ 2600000 ∧
    ((toQuotaStatus 2600000 0).limit = 2500000 ∧
     (toQuotaStatus 2600000 0).remaining = max 0 (2500000 - 2600000) ∧
     0 ≤ (toQuotaStatus 2600000 0).remaining ∧
     (2500000 ≤ (2600000 : Int) → (toQuotaStatus 2600000 0).remaining = 0)) :=
  ⟨by decide, toQuotaStatus_limit_remaining 2600000 0 (by decide)⟩

/-- C8.  For every width and height, the image estimate of the tile-based
model gpt-4o-mini in detail mode low is exactly the base cost 2833,
independent of the dimensions. -/
theorem estimateImageTokens_gpt4oMini_low (width height : Int) :
    estimateImageTokens .gpt4oMini width height .low = 2833 := rfl

/-- C3 counterexample.  At the reference instant 1970-01-01 23:59:58.500
UTC the gap to the next UTC midnight is 1500 ms: the spec's ceiling formula
gives 2 seconds, but secondsUntilNextUtcMidnight floors and returns 1. -/
theorem secondsUntilNextUtcMidnight_not_ceil :
    secondsUntilNextUtcMidnight 86398500 = 1 ∧
    ceilDiv (nextUtcMidnight 86398500 - 86398500) 1000 = 2 := by
  constructor <;> decide

/-- C3 amended.  The TTL assigned at a reference instant is
max 1 (floor of the millisecond gap to the next UTC midnight / 1000) -- a
floor, not the ceiling of the spec -- and is never below 1; it never
exceeds the ceiling formula and undershoots it by at most one second. -/
theorem secondsUntilNextUtcMidnight_floor_formula (t : Nat)
    (h : 0 < nextUtcMidnight t - t) :
    secondsUntilNextUtcMidnight t = max 1 ((nextUtcMidnight t - t) / 1000) ∧
    1 ≤ secondsUntilNextUtcMidnight t ∧
    secondsUntilNextUtcMidnight t ≤ max 1 (ceilDiv (nextUtcMidnight t - t) 1000) ∧
    ceilDiv (nextUtcMidnight t - t) 1000 ≤ secondsUntilNextUtcMidnight t + 1 := by
  have e : secondsUntilNextUtcMidnight t = max 1 ((nextUtcMidnight t - t) / 1000) := rfl
  refine ⟨e, ?_, ?_, ?_⟩
  · rw [e]; omega
  · rw [e]; unfold ceilDiv; omega
  · rw [e]; unfold ceilDiv; omega

/-- Witness for C3 amended at t = 0 (gap of one full day). -/
theorem secondsUntilNextUtcMidnight_floor_formula_witness :
    0 < nextUtcMidnight 0 - 0 ∧
    (secondsUntilNextUtcMidnight 0 = max 1 ((nextUtcMidnight 0 - 0) / 1000) ∧
     1 ≤ secondsUntilNextUtcMidnight 0 ∧
     secondsUntilNextUtcMidnight 0 ≤ max 1 (ceilDiv (nextUtcMidnight 0 - 0) 1000) ∧
     ceilDiv (nextUtcMidnight 0 - 0) 1000 ≤ secondsUntilNextUtcMidnight 0 + 1) :=
  ⟨by decide, secondsUntilNextUtcMidnight_floor_formula 0 (by decide)⟩

/-- Discriminator: did getQuotaStatus (revision 1) produce a status? -/
def StatusOutcome.isOk : StatusOutcome → Bool
  | .ok _ => true
  | .nullStatus => false
  | .connFail _ => false

/-- Discriminator: did getQuotaStatus (revision 2) produce a status? -/
def StatusOutcomeV2.isOk : StatusOutcomeV2 → Bool
  | .ok _ => true
  | .errUnavailable _ => false
  | .connFail _ => false

/-- C5.  When the durable store is unconfigured or unreachable, the status
operation of revision 1 never produces a status (it yields the null result
or a failure), and the status operation of revision 2 never produces a
status (it throws RedisUnavailableError or the command rejects); neither
ever returns a healthy-looking status with used = 0. -/
theorem getQuotaStatus_degraded_never_ok (g : QuotaGlobal) (g2 : QuotaGlobalV2) (now : Nat)
    (h1 : g.redisUrl = none ∨ g.reachable = false)
    (h2 : g2.redisUrl = none ∨ g2.reachable = false) :
    ((getQuotaStatusRun g now).1).isOk = false ∧
    ((getQuotaStatusV2Run g2 now).1).isOk = false := by
  obtain ⟨url, hc, co, re, dr, dbx⟩ := g
  obtain ⟨url2, hc2, re2, db2x⟩ := g2
  dsimp only at h1 h2
  constructor
  · rcases h1 with h | h <;> subst h
    · rfl
    · cases url <;> cases hc <;> cases co <;> rfl
  · rcases h2 with h | h <;> subst h
    · rfl
    · cases url2 <;> cases hc2 <;> rfl

/-- A global state with no configured endpoint (revision 1 shape). -/
def degradedGlobalV1 : QuotaGlobal :=
  ⟨none, false, false, true, none, RedisDB.empty⟩

/-- A global state with no configured endpoint (revision 2 shape). -/
def degradedGlobalV2 : QuotaGlobalV2 :=
  ⟨none, false, true, RedisDB.empty⟩

/-- Witness for C5 with no endpoint configured in either revision. -/
theorem getQuotaStatus_degraded_never_ok_witness :
    (degradedGlobalV1.redisUrl = none ∨ degradedGlobalV1.reachable = false) ∧
    (degradedGlobalV2.redisUrl = none ∨ degradedGlobalV2.reachable = false) ∧
    (((getQuotaStatusRun degradedGlobalV1 0).1).isOk = false ∧
     ((getQuotaStatusV2Run degradedGlobalV2 0).1).isOk = false) :=
  ⟨Or.inl rfl, Or.inl rfl,
    getQuotaStatus_degraded_never_ok degradedGlobalV1 degradedGlobalV2 0 (Or.inl rfl) (Or.inl rfl)⟩

/-- C2.  When no durable-store endpoint is configured, or it is not
reachable, the selection policy reports the memory (Local Adapter) kind,
and the Local Adapter's operations still succeed: an increment is readable
back by getUsage and returns the old total plus the clamped delta. -/
theorem localAdapter_fallback_works (redisUrl : Option String) (reachable : Bool)
    (s : LocalStore) (dayKey : String) (d : ℚ) (model : Option String)
    (h : redisUrl = none ∨ reachable = false) :
    selectStorageKind redisUrl reachable = .memory ∧
    (localGetUsage (localIncrementUsage s dayKey (.finite d) model).2 dayKey).1
      = (localIncrementUsage s dayKey (.finite d) model).1 ∧
    (localIncrementUsage s dayKey (.finite d) model).1
      = (localGetUsage s dayKey).1 + normaliseTokens (.finite d) := by
  refine ⟨?_, ?_, ?_⟩
  · rcases h with h | h <;> simp [selectStorageKind, h]
  · simp [localGetUsage, localIncrementUsage, localPrune]
  · simp only [localGetUsage, localIncrementUsage, localPrune]
    cases he : s.entries dayKey <;> simp [he]

/-- Witness for C2: unconfigured endpoint, empty local store. -/
theorem localAdapter_fallback_works_witness :
    ((none : Option String) = none ∨ true = false) ∧
    (selectStorageKind none true = .memory ∧
     (localGetUsage (localIncrementUsage ⟨fun _ => none⟩ "2025-01-01" (.finite 5) (some "gpt-5-mini")).2 "2025-01-01").1
       = (localIncrementUsage ⟨fun _ => none⟩ "2025-01-01" (.finite 5) (some "gpt-5-mini")).1 ∧
     (localIncrementUsage ⟨fun _ => none⟩ "2025-01-01" (.finite 5) (some "gpt-5-mini")).1
       = (localGetUsage ⟨fun _ => none⟩ "2025-01-01").1 + normaliseTokens (.finite 5)) :=
  ⟨Or.inl rfl,
    localAdapter_fallback_works none true ⟨fun _ => none⟩ "2025-01-01" 5 (some "gpt-5-mini") (Or.inl rfl)⟩

/-- C1 counterexample.  In the text-only revision of the estimator
(src/lib/tokenEstimator.ts), totalTokens omits sourceTokens: with an
encoder counting one token per string and the input "hello", the total is
93 while the sum of the four components is 94. -/
theorem estimateV1_total_omits_source :
    (estimateTranslationTokenUsageV1 (fun _ => 1) "hello" "auto" "zh-CN").totalTokens ≠
      (estimateTranslationTokenUsageV1 (fun _ => 1) "hello" "auto" "zh-CN").systemTokens +
      (estimateTranslationTokenUsageV1 (fun _ => 1) "hello" "auto" "zh-CN").promptTokens +
      (estimateTranslationTokenUsageV1 (fun _ => 1) "hello" "auto" "zh-CN").sourceTokens +
      (estimateTranslationTokenUsageV1 (fun _ => 1) "hello" "auto" "zh-CN").estimatedResponseTokens := by
  have hne : jsTrim "hello" ≠ "" := by decide
  simp [estimateTranslationTokenUsageV1, hne]

/-- C1 amended.  In the image-capable revision, totalTokens is the sum of
system, prompt, source and estimated-response tokens, for any encoder, on
both the non-empty text branch and the image branch; in the text-only
revision at src/lib/tokenEstimator.ts, totalTokens is the sum of system,
prompt and estimated-response tokens only, omitting sourceTokens. -/
theorem estimateTotal_component_sums (enc : String → Nat) (model : SupportedModel)
    (text sourceLang targetLang : String) (img : ImageInput)
    (h : jsTrim text ≠ "") :
    ((estimateTranslationTokenUsageV2 enc model (some text) none sourceLang targetLang).totalTokens
      = (estimateTranslationTokenUsageV2 enc model (some text) none sourceLang targetLang).systemTokens
        + (estimateTranslationTokenUsageV2 enc model (some text) none sourceLang targetLang).promptTokens
        + (estimateTranslationTokenUsageV2 enc model (some text) none sourceLang targetLang).sourceTokens
        + (estimateTranslationTokenUsageV2 enc model (some text) none sourceLang targetLang).estimatedResponseTokens) ∧
    ((estimateTranslationTokenUsageV2 enc model none (some img) sourceLang targetLang).totalTokens
      = (estimateTranslationTokenUsageV2 enc model none (some img) sourceLang targetLang).systemTokens
        + (estimateTranslationTokenUsageV2 enc model none (some img) sourceLang targetLang).promptTokens
        + (estimateTranslationTokenUsageV2 enc model none (some img) sourceLang targetLang).sourceTokens
        + (estimateTranslationTokenUsageV2 enc model none (some img) sourceLang targetLang).estimatedResponseTokens) ∧
    ((estimateTranslationTokenUsageV1 enc text sourceLang targetLang).totalTokens
      = (estimateTranslationTokenUsageV1 enc text sourceLang targetLang).systemTokens
        + (estimateTranslationTokenUsageV1 enc text sourceLang targetLang).promptTokens
        + (estimateTranslationTokenUsageV1 enc text sourceLang targetLang).estimatedResponseTokens) := by
  refine ⟨?_, ?_, ?_⟩
  · simp [estimateTranslationTokenUsageV2, h]
  · simp [estimateTranslationTokenUsageV2]
  · simp [estimateTranslationTokenUsageV1, h]

/-- Witness for C1 amended with a one-token-per-string encoder, the text
"hello" and a 640 by 480 image. -/
theorem estimateTotal_component_sums_witness :
    jsTrim "hello" ≠ "" ∧
    (((estimateTranslationTokenUsageV2 (fun _ => 1) .gpt5mini (some "hello") none "auto" "zh-CN").totalTokens
      = (estimateTranslationTokenUsageV2 (fun _ => 1) .gpt5mini (some "hello") none "auto" "zh-CN").systemTokens
        + (estimateTranslationTokenUsageV2 (fun _ => 1) .gpt5mini (some "hello") none "auto" "zh-CN").promptTokens
        + (estimateTranslationTokenUsageV2 (fun _ => 1) .gpt5mini (some "hello") none "auto" "zh-CN").sourceTokens
        + (estimateTranslationTokenUsageV2 (fun _ => 1) .gpt5mini (some "hello") none "auto" "zh-CN").estimatedResponseTokens) ∧
     ((estimateTranslationTokenUsageV2 (fun _ => 1) .gpt5mini none (some ⟨640, 480, none⟩) "auto" "zh-CN").totalTokens
      = (estimateTranslationTokenUsageV2 (fun _ => 1) .gpt5mini none (some ⟨640, 480, none⟩) "auto" "zh-CN").systemTokens
        + (estimateTranslationTokenUsageV2 (fun _ => 1) .gpt5mini none (some ⟨640, 480, none⟩) "auto" "zh-CN").promptTokens
        + (estimateTranslationTokenUsageV2 (fun _ => 1) .gpt5mini none (some ⟨640, 480, none⟩) "auto" "zh-CN").sourceTokens
        + (estimateTranslationTokenUsageV2 (fun _ => 1) .gpt5mini none (some ⟨640, 480, none⟩) "auto" "zh-CN").estimatedResponseTokens) ∧
     ((estimateTranslationTokenUsageV1 (fun _ => 1) "hello" "auto" "zh-CN").totalTokens
      = (estimateTranslationTokenUsageV1 (fun _ => 1) "hello" "auto" "zh-CN").systemTokens
        + (estimateTranslationTokenUsageV1 (fun _ => 1) "hello" "auto" "zh-CN").promptTokens
        + (estimateTranslationTokenUsageV1 (fun _ => 1) "hello" "auto" "zh-CN").estimatedResponseTokens)) :=
  ⟨by decide,
    estimateTotal_component_sums (fun _ => 1) .gpt5mini "hello" "auto" "zh-CN" ⟨640, 480, none⟩ (by decide)⟩

/-- C4 amended.  Whenever getQuotaStatus produces a status, the quota check
fails with the distinct DailyQuotaExceededError exactly when the status has
remaining at or below 0 -- the error value carries only its fixed message,
not the status -- otherwise the status itself is returned; and the check
never writes to the store. -/
theorem ensureQuota_readonly_exceeded (g : QuotaGlobal) (now : Nat) (st : QuotaStatus)
    (h : (getQuotaStatusRun g now).1 = .ok st) :
    (((ensureQuotaAvailableRun g now).1 = .errExceeded "Daily token quota exceeded") ↔ st.remaining ≤ 0) ∧
    (0 < st.remaining → (ensureQuotaAvailableRun g now).1 = .ok st) ∧
    ((ensureQuotaAvailableRun g now).2).db = g.db := by
  rcases hq : getQuotaStatusRun g now with ⟨o, g'⟩
  rw [hq] at h
  dsimp only at h
  subst h
  have hdb : g'.db = g.db := by
    have h0 := getQuotaStatusRun_db g now
    rw [hq] at h0
    exact h0
  unfold ensureQuotaAvailableRun
  rw [hq]
  dsimp only
  by_cases hle : st.remaining ≤ 0
  · rw [if_pos hle]
    refine ⟨⟨fun _ => hle, fun _ => rfl⟩, fun hpos => absurd hle (by omega), hdb⟩
  · rw [if_neg hle]
    refine ⟨⟨fun hcontra => ?_, fun hcontra => absurd hcontra hle⟩, fun _ => rfl, hdb⟩
    exact absurd hcontra (by simp)

/-- A store whose current-day total for 1970-01-01 is n. -/
def exhaustedDb (n : Int) : RedisDB :=
  ⟨fun k => if k = "token-usage:1970-01-01:total" then some n else none,
   fun _ => none, fun _ => none⟩

/-- A healthy global state over exhaustedDb. -/
def exhaustedGlobal (n : Int) : QuotaGlobal :=
  ⟨some "redis://localhost:6379", true, true, true, none, exhaustedDb n⟩

/-- C4 counterexample.  The DailyQuotaExceededError raised by the quota
check does not carry the current status: two states whose statuses differ
(used 2500000 versus used 2600000) fail with the identical error value. -/
theorem ensureQuota_error_carries_no_status :
    (ensureQuotaAvailableRun (exhaustedGlobal 2500000) 0).1
      = .errExceeded "Daily token quota exceeded" ∧
    (ensureQuotaAvailableRun (exhaustedGlobal 2600000) 0).1
      = .errExceeded "Daily token quota exceeded" ∧
    (getQuotaStatusRun (exhaustedGlobal 2500000) 0).1
      ≠ (getQuotaStatusRun (exhaustedGlobal 2600000) 0).1 := by
  refine ⟨?_, ?_, ?_⟩ <;> decide

/-- A healthy global state over the empty store. -/
def freshGlobal : QuotaGlobal :=
  ⟨some "redis://localhost:6379", false, false, true, none, RedisDB.empty⟩

/-- Witness for C4 amended on a fresh store with zero usage. -/
theorem ensureQuota_readonly_exceeded_witness :
    (getQuotaStatusRun freshGlobal 0).1 = .ok (toQuotaStatus 0 0) ∧
    ((((ensureQuotaAvailableRun freshGlobal 0).1 = .errExceeded "Daily token quota exceeded") ↔
        (toQuotaStatus 0 0).remaining ≤ 0) ∧
     (0 < (toQuotaStatus 0 0).remaining →
        (ensureQuotaAvailableRun freshGlobal 0).1 = .ok (toQuotaStatus 0 0)) ∧
     ((ensureQuotaAvailableRun freshGlobal 0).2).db = freshGlobal.db) :=
  ⟨by decide, ensureQuota_readonly_exceeded freshGlobal 0 (toQuotaStatus 0 0) (by decide)⟩

/-- C9.  An increment whose tokens argument is non-positive, NaN or
non-finite leaves the day's total counter and the per-model histogram
unchanged (beyond passive expiry), still increments the request counter by
one, and still conditionally assigns the expiry of the request counter:
set to the reference instant plus the TTL if absent, kept as is if
present. -/
theorem incrementUsage_nonpositive_frame (db : RedisDB) (dk : String) (model : Option String)
    (tms : Nat) (tk : JSNumber)
    (h : tk = .nan ∨ tk = .posInf ∨ tk = .negInf ∨ ∃ q, tk = .finite q ∧ q ≤ 0) :
    (incrementUsage db dk model tk tms).2.kv (composeKey dk .total)
        = (prune tms db).kv (composeKey dk .total) ∧
    (incrementUsage db dk model tk tms).2.hv (composeKey dk .models)
        = (prune tms db).hv (composeKey dk .models) ∧
    (incrementUsage db dk model tk tms).2.kv (composeKey dk .requests)
        = some (((prune tms db).kv (composeKey dk .requests)).getD 0 + 1) ∧
    ((prune tms db).exp (composeKey dk .requests) = none →
        (incrementUsage db dk model tk tms).2.exp (composeKey dk .requests)
          = some (tms + secondsUntilNextUtcMidnight tms * 1000)) ∧
    (∀ e, (prune tms db).exp (composeKey dk .requests) = some e →
        (incrementUsage db dk model tk tms).2.exp (composeKey dk .requests) = some e) := by
  have ht : normaliseTokens tk = 0 := by
    rcases h with h | h | h | ⟨q, hq, hle⟩
    · rw [h]; rfl
    · rw [h]; rfl
    · rw [h]; rfl
    · rw [hq]; simp [normaliseTokens, hle]
  have hne : composeKey dk .total ≠ composeKey dk .requests := composeKey_ne_total_requests dk
  unfold incrementUsage
  rw [ht]
  simp only [lt_self_iff_false, if_false]
  set p := prune tms db with hp
  set tKey := composeKey dk .total with htk
  set rKey := composeKey dk .requests with hrk
  set mKey := composeKey dk .models with hmk
  set s := secondsUntilNextUtcMidnight tms with hs
  have hresult :
      (match model with
        | some m => expireNX rKey s tms (expireNX tKey s tms (incrBy rKey 1 p))
        | none => expireNX rKey s tms (expireNX tKey s tms (incrBy rKey 1 p)))
      = expireNX rKey s tms (expireNX tKey s tms (incrBy rKey 1 p)) := by
    rcases model with _ | m <;> rfl
  rw [hresult]
  set db2 := incrBy rKey 1 p with hdb2
  set db3 := expireNX tKey s tms db2 with hdb3
  set db4 := expireNX rKey s tms db3 with hdb4
  have hkv3 : db3.kv = db2.kv := by rw [hdb3]; exact expireNX_kv _ _ _ _
  have hkv4 : db4.kv = db3.kv := by rw [hdb4]; exact expireNX_kv _ _ _ _
  have hhv3 : db3.hv = db2.hv := by rw [hdb3]; exact expireNX_hv _ _ _ _
  have hhv4 : db4.hv = db3.hv := by rw [hdb4]; exact expireNX_hv _ _ _ _
  have hkv2t : db2.kv tKey = p.kv tKey := by rw [hdb2]; simp [incrBy, hne]
  have hkv2r : db2.kv rKey = some ((p.kv rKey).getD 0 + 1) := by rw [hdb2]; simp [incrBy]
  have hexp3r : db3.exp rKey = p.exp rKey := by
    rw [hdb3, expireNX_exp_other _ _ _ _ _ (Ne.symm hne), hdb2, incrBy_exp]
  refine ⟨?_, ?_, ?_, ?_, ?_⟩
  · rw [hkv4, hkv3, hkv2t]
  · rw [hhv4, hhv3, hdb2]; rfl
  · rw [hkv4, hkv3, hkv2r]
  · intro hnone
    have hex : db3.keyExists rKey = true := by
      unfold RedisDB.keyExists
      rw [hkv3, hkv2r]
      rfl
    have hno : db3.exp rKey = none := by rw [hexp3r]; exact hnone
    rw [hdb4]
    have := expireNX_exp_set rKey s tms db3 hex hno
    rw [this]
  · intro e hsome
    have hsome3 : db3.exp rKey = some e := by rw [hexp3r]; exact hsome
    rw [hdb4]
    exact expireNX_exp_keep rKey s tms db3 e hsome3

/-- Witness for C9: a NaN token count on the empty store. -/
theorem incrementUsage_nonpositive_frame_witness :
    ((JSNumber.nan = .nan ∨ JSNumber.nan = .posInf ∨ JSNumber.nan = .negInf ∨
        ∃ q, JSNumber.nan = .finite q ∧ q ≤ 0) ) ∧
    ((incrementUsage RedisDB.empty "1970-01-01" (some "gpt-5-mini") .nan 0).2.kv (composeKey "1970-01-01" .total)
        = (prune 0 RedisDB.empty).kv (composeKey "1970-01-01" .total) ∧
     (incrementUsage RedisDB.empty "1970-01-01" (some "gpt-5-mini") .nan 0).2.hv (composeKey "1970-01-01" .models)
        = (prune 0 RedisDB.empty).hv (composeKey "1970-01-01" .models) ∧
     (incrementUsage RedisDB.empty "1970-01-01" (some "gpt-5-mini") .nan 0).2.kv (composeKey "1970-01-01" .requests)
        = some (((prune 0 RedisDB.empty).kv (composeKey "1970-01-01" .requests)).getD 0 + 1) ∧
     ((prune 0 RedisDB.empty).exp (composeKey "1970-01-01" .requests) = none →
        (incrementUsage RedisDB.empty "1970-01-01" (some "gpt-5-mini") .nan 0).2.exp (composeKey "1970-01-01" .requests)
          = some (0 + secondsUntilNextUtcMidnight 0 * 1000)) ∧
     (∀ e, (prune 0 RedisDB.empty).exp (composeKey "1970-01-01" .requests) = some e →
        (incrementUsage RedisDB.empty "1970-01-01" (some "gpt-5-mini") .nan 0).2.exp (composeKey "1970-01-01" .requests) = some e)) :=
  ⟨Or.inl rfl,
    incrementUsage_nonpositive_frame RedisDB.empty "1970-01-01" (some "gpt-5-mini") 0 .nan (Or.inl rfl)⟩

theorem incrementUsage_exp_total_after (db : RedisDB) (dk : String) (model : Option String)
    (tk : JSNumber) (t : Nat)
    (hpos : 0 < normaliseTokens tk)
    (hno : (prune t db).exp (composeKey dk .total) = none) :
    (incrementUsage db dk model tk t).2.exp (composeKey dk .total)
      = some (t + secondsUntilNextUtcMidnight t * 1000) := by
  have hne_tr : composeKey dk .total ≠ composeKey dk .requests := composeKey_ne_total_requests dk
  have hne_tm : composeKey dk .total ≠ composeKey dk .models :=
    (composeKey_ne_models_total dk).symm
  unfold incrementUsage
  dsimp only
  rw [if_pos hpos]
  set p := prune t db with hp
  set tKey := composeKey dk .total with htkdef
  set rKey := composeKey dk .requests with hrkdef
  set mKey := composeKey dk .models with hmkdef
  set s := secondsUntilNextUtcMidnight t with hsdef
  set nt := normaliseTokens tk with hntdef
  set db1 := incrBy tKey (↑nt) p with hdb1
  set db2 := incrBy rKey 1 db1 with hdb2
  set db3 := expireNX tKey s t db2 with hdb3
  set db4 := expireNX rKey s t db3 with hdb4
  have h3 : db3.exp tKey = some (t + s * 1000) := by
    rw [hdb3]
    apply expireNX_exp_set
    · unfold RedisDB.keyExists
      rw [hdb2]
      simp [incrBy, hne_tr, hdb1]
    · have e2 : db2.exp tKey = p.exp tKey := rfl
      rw [e2]
      exact hno
  have h4 : db4.exp tKey = some (t + s * 1000) := by
    rw [hdb4, expireNX_exp_other _ _ _ _ _ hne_tr]
    exact h3
  rcases model with _ | m
  · exact h4
  · show (if 0 < nt then expireNX mKey s t (hIncrBy mKey m (↑nt) db4) else db4).exp tKey
        = some (t + s * 1000)
    rw [if_pos hpos, expireNX_exp_other _ _ _ _ _ hne_tm, hIncrBy_exp]
    exact h4

theorem incrementUsage_exp_total_keep (db : RedisDB) (dk : String) (model : Option String)
    (tk : JSNumber) (t : Nat) (E : Nat)
    (hsome : (prune t db).exp (composeKey dk .total) = some E) :
    (incrementUsage db dk model tk t).2.exp (composeKey dk .total) = some E := by
  have hne_tr : composeKey dk .total ≠ composeKey dk .requests := composeKey_ne_total_requests dk
  have hne_tm : composeKey dk .total ≠ composeKey dk .models :=
    (composeKey_ne_models_total dk).symm
  unfold incrementUsage
  dsimp only
  set p := prune t db with hp
  set tKey := composeKey dk .total with htkdef
  set rKey := composeKey dk .requests with hrkdef
  set mKey := composeKey dk .models with hmkdef
  set s := secondsUntilNextUtcMidnight t with hsdef
  set nt := normaliseTokens tk with hntdef
  set db1 := (if 0 < nt then incrBy tKey (↑nt) p else p) with hdb1
  set db2 := incrBy rKey 1 db1 with hdb2
  set db3 := expireNX tKey s t db2 with hdb3
  set db4 := expireNX rKey s t db3 with hdb4
  have h1 : db1.exp tKey = some E := by
    rw [hdb1]
    split <;> exact hsome
  have h2 : db2.exp tKey = some E := h1
  have h3 : db3.exp tKey = some E := by
    rw [hdb3]
    exact expireNX_exp_keep _ _ _ _ _ h2
  have h4 : db4.exp tKey = some E := by
    rw [hdb4, expireNX_exp_other _ _ _ _ _ hne_tr]
    exact h3
  rcases model with _ | m
  · exact h4
  · show (if 0 < nt then expireNX mKey s t (hIncrBy mKey m (↑nt) db4) else db4).exp tKey = some E
    split
    · rw [expireNX_exp_other _ _ _ _ _ hne_tm, hIncrBy_exp]
      exact h4
    · exact h4

/-- C6 amended.  After two sequential increments of a positive token amount
on the same day key, the day record's expiry is the one assigned by the
first increment -- the first-increment instant plus the TTL seconds of that
instant, which is within one second of the next UTC midnight but in general
not equal to it -- and the second increment does not change it. -/
theorem incrementUsage_expiry_idempotent (db : RedisDB) (dk : String) (m1 m2 : Option String)
    (tk1 tk2 : JSNumber) (t1 t2 : Nat)
    (hpos : 0 < normaliseTokens tk1)
    (hno : (prune t1 db).exp (composeKey dk .total) = none)
    (h12 : t1 ≤ t2)
    (hlive : t2 < t1 + secondsUntilNextUtcMidnight t1 * 1000) :
    (incrementUsage db dk m1 tk1 t1).2.exp (composeKey dk .total)
      = some (t1 + secondsUntilNextUtcMidnight t1 * 1000) ∧
    (incrementUsage (incrementUsage db dk m1 tk1 t1).2 dk m2 tk2 t2).2.exp (composeKey dk .total)
      = some (t1 + secondsUntilNextUtcMidnight t1 * 1000) := by
  have h1 := incrementUsage_exp_total_after db dk m1 tk1 t1 hpos hno
  refine ⟨h1, ?_⟩
  apply incrementUsage_exp_total_keep
  show (prune t2 (incrementUsage db dk m1 tk1 t1).2).exp (composeKey dk .total) = _
  simp only [prune, h1]
  rw [if_neg (by omega)]

/-- C6 counterexample.  A first increment at 1970-01-01 12:00:00.500 UTC
assigns the expiry instant 86399500 ms -- half a second before the next UTC
midnight 86400000 ms, not equal to it -- and a second increment at
12:00:00.600 leaves it unchanged. -/
theorem incrementUsage_expiry_not_midnight :
    (incrementUsage RedisDB.empty "1970-01-01" (some "gpt-5-mini") (.finite 100) 43200500).2.exp
        (composeKey "1970-01-01" .total) = some 86399500 ∧
    (incrementUsage (incrementUsage RedisDB.empty "1970-01-01" (some "gpt-5-mini") (.finite 100) 43200500).2
        "1970-01-01" (some "gpt-5-mini") (.finite 100) 43200600).2.exp
        (composeKey "1970-01-01" .total) = some 86399500 ∧
    nextUtcMidnight 43200500 = 86400000 := by
  have hpos : 0 < normaliseTokens (.finite 100) := by norm_num [normaliseTokens, jsRound]
  have hs : secondsUntilNextUtcMidnight 43200500 = 43199 := by decide
  have h1 := incrementUsage_exp_total_after RedisDB.empty "1970-01-01" (some "gpt-5-mini")
    (.finite 100) 43200500 hpos rfl
  rw [hs] at h1
  norm_num at h1
  refine ⟨h1, ?_, by decide⟩
  apply incrementUsage_exp_total_keep
  show (prune 43200600 _).exp _ = _
  simp only [prune, h1]
  rfl

/-- Witness for C6 amended: the two increments of the counterexample
scenario satisfy all hypotheses. -/
theorem incrementUsage_expiry_idempotent_witness :
    0 < normaliseTokens (.finite 100) ∧
    (prune 43200500 RedisDB.empty).exp (composeKey "1970-01-01" .total) = none ∧
    43200500 ≤ 43200600 ∧
    43200600 < 43200500 + secondsUntilNextUtcMidnight 43200500 * 1000 ∧
    ((incrementUsage RedisDB.empty "1970-01-01" (some "gpt-5-mini") (.finite 100) 43200500).2.exp
        (composeKey "1970-01-01" .total)
      = some (43200500 + secondsUntilNextUtcMidnight 43200500 * 1000) ∧
     (incrementUsage (incrementUsage RedisDB.empty "1970-01-01" (some "gpt-5-mini") (.finite 100) 43200500).2
        "1970-01-01" (some "o4-mini") (.finite 50) 43200600).2.exp (composeKey "1970-01-01" .total)
      = some (43200500 + secondsUntilNextUtcMidnight 43200500 * 1000)) :=
  ⟨by norm_num [normaliseTokens, jsRound], rfl, by norm_num, by decide,
    incrementUsage_expiry_idempotent RedisDB.empty "1970-01-01" (some "gpt-5-mini") (some "o4-mini")
      (.finite 100) (.finite 50) 43200500 43200600
      (by norm_num [normaliseTokens, jsRound]) rfl (by norm_num) (by decide)⟩

theorem jsRound_le_of_le (a : Nat) (c m : ℚ) (hm : 0 ≤ m) (h : (a : ℚ) ≤ c) :
    jsRound ((a : ℚ) * m) ≤ jsRound (c * m) := by
  unfold jsRound
  apply Int.floor_le_floor
  have := mul_le_mul_of_nonneg_right h hm
  linarith

/-- C10 amended.  For positive dimensions, the patch-based estimate is at
most round (1536 * multiplier) whenever the raw patch count is already
within the 1536 cap, or both downscaled dimensions still cover at least one
full 32-pixel patch; outside these cases (degenerate aspect ratios) the
32-pixel clamp after downscaling can push the patch count far above the
cap. -/
theorem estimateImageTokens_patch_bound (model : SupportedModel) (mult : ℚ) (w h : Nat)
    (hm : PATCH_BASE_MODELS model = some mult)
    (hmpos : 0 ≤ mult)
    (hw : 0 < w) (hh : 0 < h)
    (hcond : ceilDiv w 32 * ceilDiv h 32 ≤ 1536 ∨
      (32 ≤ Nat.sqrt ((1572864 * w * w) / (w * h)) ∧
       32 ≤ Nat.sqrt ((1572864 * h * h) / (w * h)))) :
    estimateImageTokens model (w : Int) (h : Int) .high ≤ jsRound ((1536 : ℚ) * mult) := by
  have hwc : (max 1 ((w : Nat) : Int)).toNat = w := by
    have h1 : (1 : Int) ≤ ((w : Nat) : Int) := by exact_mod_cast hw
    rw [max_eq_right h1, Int.toNat_natCast]
  have hhc : (max 1 ((h : Nat) : Int)).toNat = h := by
    have h1 : (1 : Int) ≤ ((h : Nat) : Int) := by exact_mod_cast hh
    rw [max_eq_right h1, Int.toNat_natCast]
  unfold estimateImageTokens
  rw [hm]
  dsimp only
  rw [hwc, hhc]
  apply jsRound_le_of_le _ _ _ hmpos
  by_cases hraw : 1536 < ceilDiv w 32 * ceilDiv h 32
  · rw [if_pos hraw, if_pos hraw]
    rcases hcond with hcl | ⟨hw1, hh1⟩
    · omega
    · set w1 := Nat.sqrt ((1572864 * w * w) / (w * h)) with hw1def
      set h1 := Nat.sqrt ((1572864 * h * h) / (w * h)) with hh1def
      have b1 : w1 * w1 * (w * h) ≤ 1572864 * w * w :=
        le_trans (Nat.mul_le_mul_right _ (Nat.sqrt_le _)) (Nat.div_mul_le_self _ _)
      have b2 : h1 * h1 * (w * h) ≤ 1572864 * h * h :=
        le_trans (Nat.mul_le_mul_right _ (Nat.sqrt_le _)) (Nat.div_mul_le_self _ _)
      have hwh : 0 < w * h := Nat.mul_pos hw hh
      have hsq : (w1 * h1) * (w1 * h1) ≤ 1572864 * 1572864 := by
        have hc0 := Nat.mul_le_mul b1 b2
        have e2 : (w1 * h1) * (w1 * h1) * ((w * h) * (w * h))
            = (w1 * w1 * (w * h)) * (h1 * h1 * (w * h)) := by ring
        have e3 : (1572864 * 1572864) * ((w * h) * (w * h))
            = (1572864 * w * w) * (1572864 * h * h) := by ring
        have h4 : (w1 * h1) * (w1 * h1) * ((w * h) * (w * h))
            ≤ (1572864 * 1572864) * ((w * h) * (w * h)) := by
          rw [e2, e3]; exact hc0
        exact Nat.le_of_mul_le_mul_right h4 (Nat.mul_pos hwh hwh)
      have hkey : w1 * h1 ≤ 1572864 := by nlinarith [hsq]
      have e1 : max 32 ((w1 / 32) * 32) = (w1 / 32) * 32 := by
        have hx : 32 ≤ (w1 / 32) * 32 := by omega
        exact max_eq_right hx
      have e1h : max 32 ((h1 / 32) * 32) = (h1 / 32) * 32 := by
        have hx : 32 ≤ (h1 / 32) * 32 := by omega
        exact max_eq_right hx
      have c1 : ceilDiv ((w1 / 32) * 32) 32 = w1 / 32 := by unfold ceilDiv; omega
      have c2 : ceilDiv ((h1 / 32) * 32) 32 = h1 / 32 := by unfold ceilDiv; omega
      rw [e1, e1h, c1, c2]
      have hx : (w1 / 32) * (h1 / 32) * 1024 ≤ 1572864 := by
        have d1 : (w1 / 32) * 32 ≤ w1 := Nat.div_mul_le_self _ _
        have d2 : (h1 / 32) * 32 ≤ h1 := Nat.div_mul_le_self _ _
        calc (w1 / 32) * (h1 / 32) * 1024 = ((w1 / 32) * 32) * ((h1 / 32) * 32) := by ring
          _ ≤ w1 * h1 := Nat.mul_le_mul d1 d2
          _ ≤ 1572864 := hkey
      have htok : (w1 / 32) * (h1 / 32) ≤ 1536 := by omega
      exact_mod_cast htok
  · rw [if_neg hraw, if_neg hraw]
    exact_mod_cast (show ceilDiv w 32 * ceilDiv h 32 ≤ 1536 by omega)

/-- C10 counterexample.  At width 1 and height 1572864 the raw patch count
49152 exceeds the cap, the downscaled width collapses below one patch and
is clamped back to 32 pixels, and the recomputed patch count is again
49152: the estimate 79626 far exceeds round (1536 * 1.62) = 2488. -/
theorem estimateImageTokens_patch_cap_broken :
    jsRound ((1536 : ℚ) * (1.62 : ℚ)) = 2488 ∧
    estimateImageTokens .gpt5mini 1 1572864 .high = 79626 := by
  constructor
  · norm_num [jsRound]
  · have e1 : (max 1 (1 : Int)).toNat = 1 := rfl
    have e2 : (max 1 (1572864 : Int)).toNat = 1572864 := rfl
    unfold estimateImageTokens
    rw [show PATCH_BASE_MODELS .gpt5mini = some 1.62 from rfl]
    dsimp only
    rw [e1, e2]
    rw [show (1572864 * 1 * 1) / (1 * 1572864) = 1 from by norm_num]
    rw [show (1572864 * 1572864 * 1572864) / (1 * 1572864) = 1572864 * 1572864 from by norm_num]
    rw [Nat.sqrt_one, Nat.sqrt_eq]
    norm_num [ceilDiv, jsRound]

/-- Witness for C10 amended at 64 by 64 pixels (raw patch count 4). -/
theorem estimateImageTokens_patch_bound_witness :
    PATCH_BASE_MODELS .gpt5mini = some 1.62 ∧
    (0 : ℚ) ≤ 1.62 ∧
    0 < 64 ∧
    (ceilDiv 64 32 * ceilDiv 64 32 ≤ 1536 ∨
      (32 ≤ Nat.sqrt ((1572864 * 64 * 64) / (64 * 64)) ∧
       32 ≤ Nat.sqrt ((1572864 * 64 * 64) / (64 * 64)))) ∧
    estimateImageTokens .gpt5mini ((64 : Nat) : Int) ((64 : Nat) : Int) .high
      ≤ jsRound ((1536 : ℚ) * 1.62) :=
  ⟨rfl, by norm_num, by norm_num, Or.inl (by decide),
    estimateImageTokens_patch_bound .gpt5mini 1.62 64 64 rfl (by norm_num)
      (by norm_num) (by norm_num) (Or.inl (by decide))⟩
